import Mathlib

/-!
Verification of the firebase-smart-on-fhir LLM proxy core against its design
specification.  The definitions below are a shallow embedding, translated
from the TypeScript sources:

* `functions/src/utils/parser.ts` (JSON body parsing, message normalization)
* `functions/src/config/constants.ts` (model and field allow-lists)
* `functions/src/services/openai/utils.ts` (OpenAI projection and sanitizer)
* the OpenAI chat handler (`handleChatCompletion`) and streaming relay
  (`handleOpenAIStreaming`)
* `functions/src/services/gemini/utils.ts` and the Gemini chat handler
  (`handleGeminiChat`) with its tagged-line streaming relay
* `functions/src/middleware/errorHandler.ts` (`handleError`)

JavaScript runtime values appearing in payloads are modelled by `JsonV`;
JavaScript objects are association lists with first-match lookup and
in-place overwrite on assignment.  JS numbers are modelled as rationals,
which is exact for every numeric literal these code paths compare
(0.5 and 1).
-/

/-- Model of a JavaScript/JSON runtime value as handled by the proxy.
`undefined` is represented by absence (an `Option` at use sites); object
keys whose value is `undefined` are modelled as absent keys, which matches
every `!== undefined` test in the sources. -/
inductive JsonV where
  | str (s : String)
  | num (q : ℚ)
  | boolV (b : Bool)
  | null
  | arr (items : List JsonV)
  | obj (fields : List (String × JsonV))

/-- A JavaScript object: ordered association list of fields. -/
abbrev JsObject := List (String × JsonV)

/-- Field read `o[k]`: first binding wins (JS objects have unique keys). -/
def getField (o : JsObject) (k : String) : Option JsonV :=
  (o.find? (fun p => p.1 = k)).map (fun p => p.2)

/-- Field write `o[k] = v`: overwrite in place if the key exists, else
append (matches JS property-insertion order semantics). -/
def setField (o : JsObject) (k : String) (v : JsonV) : JsObject :=
  if (o.find? (fun p => p.1 = k)).isSome then
    o.map (fun p => if p.1 = k then (k, v) else p)
  else
    o ++ [(k, v)]

/-- JavaScript falsiness of a value (for `!x` / `x || y` tests on payload
fields).  `NaN` cannot arise from the literals these paths compare. -/
def jsFalsy : JsonV → Bool
  | .str s => s.isEmpty
  | .num q => q = 0
  | .boolV b => !b
  | .null => true
  | .arr _ => false
  | .obj _ => false

/-- JavaScript `String.prototype.includes`, via list-infix on characters. -/
def strIncludes (s sub : String) : Bool :=
  decide (sub.data <:+: s.data)

/-- JavaScript `JSON.stringify` on a string (quote and escape); only the
escapes relevant to chat text are modelled. -/
def jsStringLit (s : String) : String :=
  "\"" ++ String.join (s.data.map (fun c =>
    if c = '"' then "\\\""
    else if c = '\\' then "\\\\"
    else if c = '\n' then "\\n"
    else if c = '\r' then "\\r"
    else if c = '\t' then "\\t"
    else String.singleton c)) ++ "\""

/-- JavaScript `String.prototype.trim`, structurally (drop ASCII whitespace
from both ends); the exotic Unicode space classes JS also strips do not
appear in any compared literal. -/
def jsTrim (s : String) : String :=
  ⟨((s.data.dropWhile Char.isWhitespace).reverse.dropWhile
      Char.isWhitespace).reverse⟩

/-- Digits of a decimal literal to a natural number; `none` if empty or a
non-digit appears. -/
def decDigits (l : List Char) : Option Nat :=
  if l ≠ [] && l.all Char.isDigit then
    some (l.foldl (fun a c => a * 10 + (c.toNat - 48)) 0)
  else
    none

/-- Models the platform `Number(string)` coercion on plain decimal literals
(optional sign, integer part, optional fractional part); exotic forms
(hex, exponent, Infinity) are out of scope of every claim and map to
`none` (NaN). -/
def jsNumberOfString (s : String) : Option ℚ :=
  let t := jsTrim s
  let (sign, u) :=
    if t.startsWith "-" then ((-1 : ℚ), t.drop 1)
    else if t.startsWith "+" then ((1 : ℚ), t.drop 1)
    else ((1 : ℚ), t)
  let ip := u.data.takeWhile Char.isDigit
  let rest := u.data.drop ip.length
  match rest with
  | [] => (decDigits ip).map (fun n => sign * (n : ℚ))
  | '.' :: fp =>
      if fp.all Char.isDigit && (ip ≠ [] || fp ≠ []) then
        some (sign * ((ip.foldl (fun a c => a * 10 + (c.toNat - 48)) 0 : ℚ) +
          (fp.foldl (fun a c => a * 10 + (c.toNat - 48)) 0 : ℚ) /
            ((10 : ℚ) ^ fp.length)))
      else none
  | _ => none

/-- `toNumber` from `utils/parser.ts`: finite numbers pass through, trimmed
non-empty strings go through `Number(...)`, everything else is `undefined`. -/
def toNumber : JsonV → Option ℚ
  | .num q => some q
  | .str s => if jsTrim s ≠ "" then jsNumberOfString s else none
  | _ => none

/-- `toNumber` applied to a possibly-absent field. -/
def toNumberOpt : Option JsonV → Option ℚ
  | some v => toNumber v
  | none => none

/-- A normalized image entry (`data` required string, `mimeType` carried
through unchecked), from `normalizeChatMessages` in `utils/parser.ts`. -/
structure ImageData where
  data : String
  mimeType : Option JsonV

/-- Canonical internal chat message (`types/common.ts` `ChatMessage`,
with the optional `images` list defaulted to empty). -/
structure ChatMessage where
  role : String
  content : String
  images : List ImageData := []

/-- `toPlainText` from `utils/parser.ts`: plain string passes through; an
array keeps the string `text` fields of its object elements, drops falsy
ones, and space-joins when at least one remains (otherwise falls through);
a single object with a string `text` field yields that text. -/
def toPlainText : JsonV → Option String
  | .str s => some s
  | .arr items =>
      let texts := (items.filterMap (fun item =>
        match item with
        | .obj fields =>
            match getField fields "text" with
            | some (.str t) => some t
            | _ => none
        | _ => none)).filter (fun t => t ≠ "")
      if texts.length > 0 then some (String.intercalate " " texts) else none
  | .obj fields =>
      match getField fields "text" with
      | some (.str t) => some t
      | _ => none
  | _ => none

/-- The image-list normalization inside `normalizeChatMessages`: filter to
entries exposing a string `data` field, carry `mimeType` through. -/
def normalizeImages (items : List JsonV) : List ImageData :=
  items.filterMap (fun img =>
    match img with
    | .obj fields =>
        match getField fields "data" with
        | some (.str d) => some ⟨d, getField fields "mimeType"⟩
        | _ => none
    | _ => none)

/-- `normalizeChatMessages` from `utils/parser.ts`: keep objects with a
string `role` and a `content` whose `toPlainText` is truthy (non-empty
string); attach normalized images when a non-empty `images` array is
present. -/
def normalizeChatMessages (messages : List JsonV) : List ChatMessage :=
  messages.filterMap (fun message =>
    match message with
    | .obj fields =>
        match getField fields "role" with
        | some (.str role) =>
            match getField fields "content" with
            | some rawContent =>
                match toPlainText rawContent with
                | some content =>
                    if content ≠ "" then
                      some { role := role, content := content,
                             images :=
                               match getField fields "images" with
                               | some (.arr imgs) =>
                                   if imgs.length > 0 then normalizeImages imgs
                                   else []
                               | _ => [] }
                    else none
                | none => none
            | none => none
        | _ => none
    | _ => none)

/-- `buildMessages` from `utils/parser.ts`: an explicit `messages` array
wins; else a truthy string `inputText` becomes a single user message. -/
def buildMessages (payload : JsObject) : Option (List JsonV) :=
  match getField payload "messages" with
  | some (.arr l) => some l
  | _ =>
      match getField payload "inputText" with
      | some (.str s) =>
          if s ≠ "" then
            some [.obj [("role", .str "user"), ("content", .str s)]]
          else none
      | _ => none

/-- `ALLOWED_MODEL_IDS` from `config/constants.ts`. -/
def ALLOWED_MODEL_IDS : List String := ["gpt-5-mini", "gpt-4o"]

/-- `ALLOWED_OPENAI_KEYS` from `config/constants.ts` (verbatim, including
the duplicate `presence_penalty` entry). -/
def ALLOWED_OPENAI_KEYS : List String :=
  ["messages", "model", "temperature", "max_tokens", "top_p",
   "frequency_penalty", "presence_penalty", "stop", "n", "stream",
   "logit_bias", "user", "presence_penalty", "response_format", "tools",
   "tool_choice", "parallel_tool_calls", "functions", "function_call",
   "seed"]

/-- OpenAI multi-part content element. -/
inductive OpenAIPart where
  | text (s : String)
  | imageUrl (url : String)

/-- OpenAI wire-shape message content: plain string or multi-part array. -/
inductive OpenAIContent where
  | plain (s : String)
  | parts (l : List OpenAIPart)

/-- OpenAI wire-shape message. -/
structure OpenAIMsg where
  role : String
  content : OpenAIContent

/-- `transformMessagesForOpenAI` from `services/openai/utils.ts`: a message
with images becomes a text part followed by one `image_url` part per image
(url := image `data`), in order; a message without images keeps string
content. -/
def transformMessagesForOpenAI (messages : List ChatMessage) : List OpenAIMsg :=
  messages.map (fun msg =>
    if msg.images.length > 0 then
      { role := msg.role,
        content := .parts (.text msg.content ::
          msg.images.map (fun img => .imageUrl img.data)) }
    else
      { role := msg.role, content := .plain msg.content })

/-- JSON encoding of an OpenAI content part, as it would appear in the
request body handed to `sanitizeChatPayload`. -/
def encodeOpenAIPart : OpenAIPart → JsonV
  | .text s => .obj [("type", .str "text"), ("text", .str s)]
  | .imageUrl u =>
      .obj [("type", .str "image_url"), ("image_url", .obj [("url", .str u)])]

/-- JSON encoding of OpenAI message content. -/
def encodeOpenAIContent : OpenAIContent → JsonV
  | .plain s => .str s
  | .parts l => .arr (l.map encodeOpenAIPart)

/-- JSON encoding of an OpenAI wire message. -/
def encodeOpenAIMsg (m : OpenAIMsg) : JsonV :=
  .obj [("role", .str m.role), ("content", encodeOpenAIContent m.content)]

/-- JSON encoding of a list of OpenAI wire messages. -/
def encodeOpenAIMessages (l : List OpenAIMsg) : JsonV :=
  .arr (l.map encodeOpenAIMsg)

/-- First statements of `sanitizeChatPayload`
(`services/openai/utils.ts`): seed the output with the supplied
(projected) `messages`, then copy every `ALLOWED_OPENAI_KEYS` field
defined on the raw payload, in list order. -/
def sanitizeCopyAllowed (payload : JsObject) (messages : JsonV) : JsObject :=
  ALLOWED_OPENAI_KEYS.foldl (fun acc key =>
    match getField payload key with
    | some v => setField acc key v
    | none => acc) [("messages", messages)]

/-- `if (requestedModel && ALLOWED_MODEL_IDS.has(requestedModel))
sanitized.model = requestedModel;` from `sanitizeChatPayload`, where
`requestedModel` is the payload `model` when it is a string. -/
def sanitizeApplyModelAllowSet (payload : JsObject) (o : JsObject) :
    JsObject :=
  match getField payload "model" with
  | some (.str m) =>
      if m ≠ "" && ALLOWED_MODEL_IDS.contains m then
        setField o "model" (.str m)
      else o
  | _ => o

/-- `if (!sanitized.model) sanitized.model = "gpt-5-mini";` from
`sanitizeChatPayload`. -/
def sanitizeDefaultModel (o : JsObject) : JsObject :=
  match getField o "model" with
  | some v => if jsFalsy v then setField o "model" (.str "gpt-5-mini") else o
  | none => setField o "model" (.str "gpt-5-mini")

/-- The literal `0.5`, in the normal form the rational kernel
representation expects. -/
def qHalf : ℚ := ⟨1, 2, by decide, by decide⟩

theorem qHalf_eq_half : qHalf = 1/2 := by
  rw [Rat.eq_iff_mul_eq_mul]
  norm_num [qHalf]

/-- `if (sanitized.temperature === undefined) sanitized.temperature = 0.5;`
from `sanitizeChatPayload`. -/
def sanitizeDefaultTemperature (o : JsObject) : JsObject :=
  match getField o "temperature" with
  | some _ => o
  | none => setField o "temperature" (.num qHalf)

/-- `sanitizeChatPayload` from `services/openai/utils.ts`: its four
sequential mutation steps in source order. -/
def sanitizeChatPayload (payload : JsObject) (messages : JsonV) : JsObject :=
  sanitizeDefaultTemperature
    (sanitizeDefaultModel
      (sanitizeApplyModelAllowSet payload
        (sanitizeCopyAllowed payload messages)))

/-- `const model = chatRequest.model || "gpt-5-mini"` from the OpenAI chat
handler `handleChatCompletion`. -/
def openAIResolvedModel (chatRequest : JsObject) : JsonV :=
  match getField chatRequest "model" with
  | some v => if jsFalsy v then .str "gpt-5-mini" else v
  | none => .str "gpt-5-mini"

/-- The request-building tail of `handleChatCompletion` (OpenAI handler):
after sanitizing, resolve `model` with a falsy-fallback to `"gpt-5-mini"`
and force `temperature` to exactly 1 when the sanitized temperature is a
number other than 1 and the resolved model is strictly equal to the
string `"gpt-5-mini"`. -/
def openAIFinalRequest (payload : JsObject) (transformedMessages : JsonV) :
    JsObject :=
  let chatRequest := sanitizeChatPayload payload transformedMessages
  match getField chatRequest "temperature" with
  | some (.num t) =>
      if t ≠ 1 &&
          (match openAIResolvedModel chatRequest with
           | .str s => s = "gpt-5-mini"
           | _ => false) then
        setField chatRequest "temperature" (.num 1)
      else chatRequest
  | _ => chatRequest

/-- One part of a Gemini `contents` entry: text or base64 inline data. -/
inductive GeminiPart where
  | text (s : String)
  | inlineData (mimeType : String) (data : String)

/-- A Gemini `contents` entry (also reused for `systemInstruction`). -/
structure GeminiEntry where
  role : String
  parts : List GeminiPart

/-- The data-URI match from `transformMessagesForGemini`
(regex `^data:([^;]+);base64,(.+)$`): a `data:` scheme, a non-empty MIME
type up to the first semicolon, the literal `;base64,`, and a non-empty
remainder free of line terminators (the dot excludes them). -/
def parseDataUri (s : String) : Option (String × String) :=
  if s.startsWith "data:" then
    let rest := s.drop 5
    let mime := rest.takeWhile (fun c => c ≠ ';')
    let tail := rest.drop mime.length
    if mime.length > 0 && tail.startsWith ";base64," then
      let payload := tail.drop 8
      if payload.length > 0 && !(payload.data.contains '\n') &&
          !(payload.data.contains '\r') then
        some (mime, payload)
      else none
    else none
  else none

/-- `transformMessagesForGemini` from `services/gemini/utils.ts`: drop
system-role messages; each survivor becomes a text part followed by one
`inline_data` part per image whose data matches the data-URI pattern
(non-matching images silently skipped); role `assistant` maps to `model`,
every other role to `user`. -/
def transformMessagesForGemini (messages : List ChatMessage) :
    List GeminiEntry :=
  (messages.filter (fun msg => msg.role ≠ "system")).map (fun msg =>
    { role := if msg.role = "assistant" then "model" else "user",
      parts := .text msg.content ::
        msg.images.filterMap (fun img =>
          (parseDataUri img.data).map (fun p => .inlineData p.1 p.2)) })

/-- `buildGeminiGenerationConfig` from `services/gemini/utils.ts`: collect
the recognized numeric fields, renaming to camelCase, with
`max_output_tokens` preferred over `max_tokens`; yield nothing when no
field qualified. -/
def buildGeminiGenerationConfig (payload : JsObject) : Option JsObject :=
  let gc : JsObject := []
  let gc :=
    match getField payload "temperature" with
    | some (.num q) => setField gc "temperature" (.num q)
    | _ => gc
  let gc :=
    match getField payload "top_p" with
    | some (.num q) => setField gc "topP" (.num q)
    | _ => gc
  let gc :=
    match getField payload "top_k" with
    | some (.num q) => setField gc "topK" (.num q)
    | _ => gc
  let gc :=
    match getField payload "max_output_tokens" with
    | some (.num q) => setField gc "maxOutputTokens" (.num q)
    | _ =>
        match getField payload "max_tokens" with
        | some (.num q) => setField gc "maxOutputTokens" (.num q)
        | _ => gc
  if gc.length > 0 then some gc else none

/-- The `typeof v === "object" && v !== null` test: objects expose their
fields; arrays are objects exposing none of the looked-up keys. -/
def jsObjFields : JsonV → Option JsObject
  | .obj fields => some fields
  | .arr _ => some []
  | _ => none

/-- `extractRequestedTemperature` from `services/gemini/utils.ts`: the
top-level `temperature` (via `toNumber`) wins; else the first numeric
`temperature` among the built generation config and a client-supplied
`generationConfig`/`generation_config` object. -/
def extractRequestedTemperature (payload : JsObject)
    (generationConfig : Option JsObject) : Option ℚ :=
  match toNumberOpt (getField payload "temperature") with
  | some t => some t
  | none =>
      let payloadGCRaw :=
        match (getField payload "generationConfig").bind jsObjFields with
        | some f => some f
        | none => (getField payload "generation_config").bind jsObjFields
      ([generationConfig, payloadGCRaw].filterMap id).findSome?
        (fun src => toNumberOpt (getField src "temperature"))

/-- Model resolution in `handleGeminiChat`: a string `model` with truthy
trim wins, else the configured Gemini default model. -/
def geminiResolvedModel (payload : JsObject) (defaultModel : String) :
    String :=
  match getField payload "model" with
  | some (.str s) => if jsTrim s ≠ "" then s else defaultModel
  | _ => defaultModel

/-- JavaScript `String.prototype.toLowerCase`, structurally on the ASCII
range (model identifiers are ASCII). -/
def jsToLower (s : String) : String :=
  ⟨s.data.map (fun c =>
    if 65 ≤ c.toNat && c.toNat ≤ 90 then Char.ofNat (c.toNat + 32) else c)⟩

/-- `model.toLowerCase().includes("flash")` from `handleGeminiChat`. -/
def isFlashModel (model : String) : Bool :=
  strIncludes (jsToLower model) "flash"

/-- The generation config actually sent by `handleGeminiChat`: the built
config, overridden with `temperature: 1` when the requested temperature is
a number other than 1 and the resolved model name contains `flash`. -/
def geminiResolvedConfig (payload : JsObject) (defaultModel : String) :
    Option JsObject :=
  let generationConfig := buildGeminiGenerationConfig payload
  let model := geminiResolvedModel payload defaultModel
  match extractRequestedTemperature payload generationConfig with
  | some t =>
      if t ≠ 1 && isFlashModel model then
        some (setField (generationConfig.getD []) "temperature" (.num 1))
      else generationConfig
  | none => generationConfig

/-- The non-streaming Gemini upstream request body shape built by
`handleGeminiChat`. -/
structure GeminiRequestBody where
  contents : List GeminiEntry
  systemInstruction : Option GeminiEntry
  generationConfig : Option JsObject
  safetySettings : Option JsonV
  tools : Option JsonV
  toolConfig : Option JsonV
  responseSchema : Option JsonV
  responseMimeType : Option String

/-- The `requestBody` construction of `handleGeminiChat` (non-streaming
branch): `contents` from the Gemini projection; when at least one
system-role message exists, a single `systemInstruction` whose one text
part newline-joins their contents in order; optional passthrough fields
copied only when well-typed. -/
def buildGeminiRequestBody (payload : JsObject)
    (normalizedMessages : List ChatMessage) (defaultModel : String) :
    GeminiRequestBody :=
  let systemMessages := normalizedMessages.filter (fun m => m.role = "system")
  { contents := transformMessagesForGemini normalizedMessages,
    systemInstruction :=
      if systemMessages.length > 0 then
        some { role := "system",
               parts := [.text (String.intercalate "\n"
                 (systemMessages.map (fun m => m.content)))] }
      else none,
    generationConfig := geminiResolvedConfig payload defaultModel,
    safetySettings :=
      match getField payload "safetySettings" with
      | some (.arr l) => some (.arr l)
      | _ => none,
    tools :=
      match getField payload "tools" with
      | some (.arr l) => some (.arr l)
      | _ => none,
    toolConfig :=
      match getField payload "toolConfig" with
      | some .null => getField payload "tool_config"
      | some v => some v
      | none => getField payload "tool_config",
    responseSchema := getField payload "responseSchema",
    responseMimeType :=
      match getField payload "responseMimeType" with
      | some (.str s) => some s
      | _ => none }

/-- An HTTP response as produced by the handlers: status plus JSON body. -/
structure HttpResponse where
  status : Nat
  body : JsObject

/-- The error values reaching `handleError` in
`middleware/errorHandler.ts`: an axios upstream failure (optional response
status and data) or any other thrown error. -/
inductive JsError where
  | axiosE (status : Option Nat) (data : Option JsonV) (message : String)
  | generic (message : String)

/-- `extractOpenAiMessage` from `middleware/errorHandler.ts`. -/
def extractOpenAiMessage (details : Option JsonV) : Option String :=
  match details with
  | some (.obj fields) =>
      match getField fields "error" with
      | some (.obj ef) =>
          match getField ef "message" with
          | some (.str m) => some (jsTrim m)
          | _ => none
      | _ => none
  | _ => none

/-- `handleError` from `middleware/errorHandler.ts`: axios errors keep the
upstream status (default 500) and prefer the provider error message;
every other error becomes HTTP 500 with `error` set to its message. -/
def handleError : JsError → HttpResponse
  | .axiosE status data message =>
      ⟨status.getD 500,
        [("error", .str ((extractOpenAiMessage data).getD message))] ++
          (match data with
           | some d => [("details", d)]
           | none => [])⟩
  | .generic message => ⟨500, [("error", .str message)]⟩

/-- The request body as the handlers receive it from Express. -/
inductive ReqBody where
  | missing
  | objBody (p : JsObject)
  | strBody (s : String)

/-- `parseJsonBody` from `utils/parser.ts`, with the platform `JSON.parse`
abstracted as `parse` (returning `none` when the string is not valid
JSON): a falsy body yields the empty object, an object body passes
through, a non-empty string body parses or throws
`"Invalid JSON payload"`. -/
def parseJsonBodyE (parse : String → Option JsObject) :
    ReqBody → Except String JsObject
  | .missing => .ok []
  | .objBody p => .ok p
  | .strBody s =>
      if s = "" then .ok []
      else
        match parse s with
        | some p => .ok p
        | none => .error "Invalid JSON payload"

/-- Where `handleChatCompletion` ends up, for a POST request that passed
client-key verification with an OpenAI key configured: a direct response
with no upstream call, a non-streaming upstream call carrying the built
request, or a streaming upstream call. -/
inductive OpenAIOutcome where
  | respond (r : HttpResponse)
  | upstreamCall (chatRequest : JsObject)
  | upstreamStream (model : JsonV) (messages : List ChatMessage)
      (chatRequest : JsObject)

/-- `handleChatCompletion` (OpenAI chat handler) up to the upstream call,
assuming method POST, client key verified, and the OpenAI API key
present; a thrown body-parse error is caught by
`withCorsAndErrorHandling` and routed through `handleError`. -/
def handleChatCompletionModel (parse : String → Option JsObject)
    (reqBody : ReqBody) : OpenAIOutcome :=
  match parseJsonBodyE parse reqBody with
  | .error msg => .respond (handleError (.generic msg))
  | .ok payload =>
      match buildMessages payload with
      | none =>
          .respond ⟨400,
            [("error", .str "Request must include messages or inputText")]⟩
      | some rawMessages =>
          let normalizedMessages := normalizeChatMessages rawMessages
          let transformedMessages :=
            transformMessagesForOpenAI normalizedMessages
          let chatRequest :=
            openAIFinalRequest payload
              (encodeOpenAIMessages transformedMessages)
          if (match getField payload "stream" with
              | some (.boolV true) => true
              | _ => false) then
            .upstreamStream (openAIResolvedModel
                (sanitizeChatPayload payload
                  (encodeOpenAIMessages transformedMessages)))
              normalizedMessages chatRequest
          else
            .upstreamCall chatRequest

/-- Where `handleGeminiChat` ends up under the same preconditions. -/
inductive GeminiOutcome where
  | respond (r : HttpResponse)
  | upstreamCall (model : String) (requestBody : GeminiRequestBody)
  | upstreamStream (model : String) (messages : List ChatMessage)
      (generationConfig : Option JsObject)

/-- `handleGeminiChat` up to the upstream call, assuming method POST,
client key verified, and the Gemini API key present. -/
def handleGeminiChatModel (parse : String → Option JsObject)
    (reqBody : ReqBody) (defaultModel : String) : GeminiOutcome :=
  match parseJsonBodyE parse reqBody with
  | .error msg => .respond (handleError (.generic msg))
  | .ok payload =>
      match buildMessages payload with
      | none =>
          .respond ⟨400,
            [("error", .str "Request must include messages or inputText")]⟩
      | some rawMessages =>
          let normalizedMessages := normalizeChatMessages rawMessages
          if normalizedMessages.length = 0 then
            .respond ⟨400, [("error", .str "No usable messages found")]⟩
          else
            let contents := transformMessagesForGemini normalizedMessages
            if contents.length = 0 then
              .respond ⟨400,
                [("error", .str "No user or assistant messages found")]⟩
            else
              let model := geminiResolvedModel payload defaultModel
              if (match getField payload "stream" with
                  | some (.boolV true) => true
                  | _ => false) then
                .upstreamStream model normalizedMessages
                  (geminiResolvedConfig payload defaultModel)
              else
                .upstreamCall model
                  (buildGeminiRequestBody payload normalizedMessages
                    defaultModel)

/-- An observable event on the downstream connection: a frame written, or
the connection being closed. -/
inductive REvent where
  | wrote (frame : String)
  | closed
  deriving DecidableEq, Repr

/-- Downstream connection state during a relay run: Node's `writableEnded`
flag plus the chronological event log.  `writableEnded` becomes true only
when `end()` is called on the response; a client disconnect instead
surfaces as a thrown write error. -/
structure RelayState where
  ended : Bool
  log : List REvent
  deriving DecidableEq, Repr

/-- One unit of the upstream `for await` iteration: a decoded chunk
(text-delta or finish, each tagged with the write outcome the downstream
connection would produce for its frame: `none` = success, `some msg` =
the write throws `msg`), an ignored chunk kind, or the iterator itself
throwing. -/
inductive UpItem where
  | textDelta (text : String) (writeError : Option String)
  | finish (reason : String) (writeError : Option String)
  | other
  | errEv (msg : String)

/-- The tagged-line frame for a text delta: `0:<JSON string>\n`. -/
def textDeltaFrame (text : String) : String :=
  "0:" ++ jsStringLit text ++ "\n"

/-- The tagged-line frame for a finish event:
`d:\x7b"finishReason":"<reason>"\x7d\n`. -/
def finishFrame (reason : String) : String :=
  "d:\x7b\"finishReason\":\"" ++ reason ++ "\"\x7d\n"

/-- The `if (!res.writableEnded) res.end();` epilogue shared by both
tagged-line relays. -/
def finishRelay (s : RelayState) : RelayState :=
  if s.ended then s else { ended := true, log := s.log ++ [.closed] }

/-- The guarded `for await` relay loop shared verbatim (up to logging) by
`handleGeminiStreaming` (`services/gemini/streaming.ts`, guarded variant)
and `handleOpenAIStreaming` (`services/openai/streaming.ts`):
a text-delta chunk is written when `writableEnded` is still false, a
throwing write or an observed-closed connection breaks out of the loop; a
finish chunk is written under the same guard but a closed connection only
skips it; an iterator exception is swallowed by the outer catch when its
message matches a benign-disconnect signature (per the relay's `benign`
predicate) and re-thrown otherwise; on every non-throwing exit the
epilogue closes the connection unless already closed. -/
def relayLoop (benign : String → Bool) :
    List UpItem → RelayState → Except String RelayState
  | [], s => .ok (finishRelay s)
  | .textDelta t we :: rest, s =>
      if s.ended then .ok (finishRelay s)
      else
        match we with
        | some _ => .ok (finishRelay s)
        | none =>
            relayLoop benign rest
              { s with log := s.log ++ [.wrote (textDeltaFrame t)] }
  | .finish r we :: rest, s =>
      if s.ended then relayLoop benign rest s
      else
        match we with
        | some _ => .ok (finishRelay s)
        | none =>
            relayLoop benign rest
              { s with log := s.log ++ [.wrote (finishFrame r)] }
  | .other :: rest, s => relayLoop benign rest s
  | .errEv msg :: _, s =>
      if benign msg then .ok (finishRelay s) else .error msg

/-- The benign-disconnect test of `handleGeminiStreaming`:
`errorMessage.includes("write after end") || includes("EPIPE") ||
includes("ECONNRESET")` selects the swallowed errors. -/
def benignDisconnectGemini (msg : String) : Bool :=
  strIncludes msg "write after end" || strIncludes msg "EPIPE" ||
    strIncludes msg "ECONNRESET"

/-- The benign-disconnect test of `handleOpenAIStreaming`, written as in
its source: re-throw when the message includes none of the three
signatures, hence swallow the complement. -/
def benignDisconnectOpenAI (msg : String) : Bool :=
  !(!strIncludes msg "write after end" && !strIncludes msg "EPIPE" &&
    !strIncludes msg "ECONNRESET")

/-- The Gemini tagged-line relay (`services/gemini/streaming.ts`, the
guarded variant at lines 70-155 of the file) as a run over an upstream
trace, from a downstream connection whose `writableEnded` flag starts at
`ended0`. -/
def handleGeminiStreamingRelay (ended0 : Bool) (items : List UpItem) :
    Except String RelayState :=
  relayLoop benignDisconnectGemini items ⟨ended0, []⟩

/-- The OpenAI tagged-line relay (`services/openai/streaming.ts`) as a run
over an upstream trace. -/
def handleOpenAIStreamingRelay (ended0 : Bool) (items : List UpItem) :
    Except String RelayState :=
  relayLoop benignDisconnectOpenAI items ⟨ended0, []⟩

/-- Count of `closed` events in a relay log. -/
def closedCount (l : List REvent) : Nat :=
  l.countP (fun e => e = .closed)

/-- No frame is written at or after a point where the connection is
closed: every `wrote` event precedes every `closed` event. -/
def noWriteAfterClose : List REvent → Bool
  | [] => true
  | .wrote _ :: rest => noWriteAfterClose rest
  | .closed :: rest =>
      rest.all (fun e => match e with
        | .wrote _ => false
        | .closed => true)

/-! ## Helper lemmas on the JavaScript-object model -/

theorem getField_setField (o : JsObject) (k : String) (v : JsonV) :
    getField (setField o k v) k = some v := by
  induction o with
  | nil => simp [setField, getField]
  | cons p o ih =>
      by_cases hp : p.1 = k
      · simp [setField, getField, List.find?, hp]
      · simp only [setField, List.find?, getField] at ih ⊢
        by_cases ho : (List.find? (fun p => decide (p.1 = k)) o).isSome
        · simpa [hp, ho] using ih
        · simp [hp, ho] at ih ⊢
          exact ih

theorem getField_cons (q : String × JsonV) (o : JsObject) (k : String) :
    getField (q :: o) k = if q.1 = k then some q.2 else getField o k := by
  unfold getField
  rw [List.find?]
  by_cases h : q.1 = k
  · simp [h]
  · simp [h]

theorem getField_map_overwrite_ne (o : JsObject) (k k' : String) (v : JsonV)
    (h : k' ≠ k) :
    getField (o.map (fun p => if p.1 = k then (k, v) else p)) k' =
      getField o k' := by
  have hk : ¬(k = k') := fun x => h x.symm
  induction o with
  | nil => simp [getField]
  | cons q o ih =>
      rw [List.map_cons, getField_cons, getField_cons]
      by_cases hq : q.1 = k
      · simp [hq, hk, ih]
      · rw [if_neg hq]
        by_cases hq' : q.1 = k' <;> simp [hq', ih]

theorem getField_append_ne (o : JsObject) (k k' : String) (v : JsonV)
    (h : k' ≠ k) : getField (o ++ [(k, v)]) k' = getField o k' := by
  have hk : ¬(k = k') := fun x => h x.symm
  induction o with
  | nil => simp [getField_cons, getField, hk]
  | cons q o ih =>
      rw [List.cons_append, getField_cons, getField_cons]
      by_cases hq' : q.1 = k' <;> simp [hq', ih]

theorem getField_setField_ne (o : JsObject) (k k' : String) (v : JsonV)
    (h : k' ≠ k) : getField (setField o k v) k' = getField o k' := by
  unfold setField
  by_cases ho : (o.find? (fun p => p.1 = k)).isSome
  · simpa [ho] using getField_map_overwrite_ne o k k' v h
  · simpa [ho] using getField_append_ne o k k' v h

theorem getField_copy_foldl (payload : JsObject) (keys : List String)
    (acc : JsObject) (k : String) :
    getField (keys.foldl (fun acc key =>
      match getField payload key with
      | some v => setField acc key v
      | none => acc) acc) k =
    if k ∈ keys ∧ (getField payload k).isSome
    then getField payload k else getField acc k := by
  induction keys generalizing acc with
  | nil => simp
  | cons key keys ih =>
      rw [List.foldl_cons, ih]
      by_cases hk : k = key
      · subst hk
        cases hpk : getField payload k with
        | none => simp [hpk]
        | some v => simp [hpk, getField_setField]
      · have hmem : (k ∈ key :: keys) ↔ (k ∈ keys) := by simp [hk]
        cases hpk : getField payload key with
        | none => simp [hmem]
        | some v =>
            simp [hpk, hmem, getField_setField_ne acc key k v hk]

/-! ## C1 -/

/-- C1: the claim says a requested `model` outside `ALLOWED_MODEL_IDS` is
replaced by the configured default, and the requested model never appears
in the upstream body.  The code violates this: `"model"` is itself a
member of `ALLOWED_OPENAI_KEYS`, so the copy loop forwards the raw client
model before the (now dead) allow-set check, and the falsy-only default
check keeps any non-empty string.  Evaluating `sanitizeChatPayload` at the
spec's own scenario input shows the disallowed `"unknown-model"` in the
output. -/
theorem sanitizeChatPayload_forwards_disallowed_model :
    (let raw : List JsonV :=
      [.obj [("role", .str "user"), ("content", .str "Hi")]]
    let payload : JsObject :=
      [("messages", .arr raw), ("stream", .boolV true),
       ("model", .str "unknown-model")]
    let projected := encodeOpenAIMessages
      (transformMessagesForOpenAI (normalizeChatMessages raw))
    getField (sanitizeChatPayload payload projected) "model" =
      some (.str "unknown-model")) ∧
    ALLOWED_MODEL_IDS.contains "unknown-model" = false ∧
    "unknown-model" ≠ "gpt-5-mini" := by
  refine ⟨rfl, by decide, by decide⟩

/-! ## C2 -/

/-- C2: the claim says the builder's output `messages` always equals the
projected normalized list, never the client's raw `messages`.  The code
violates this: `"messages"` is on `ALLOWED_OPENAI_KEYS`, so the copy loop
overwrites the projected list with the raw client value whenever the
payload carries `messages`.  At a payload whose message content is an
array of text parts, the projection differs from the raw value and the
output carries the raw one. -/
theorem sanitizeChatPayload_overwrites_projected_messages :
    (let raw : List JsonV :=
      [.obj [("role", .str "user"),
             ("content", .arr [.obj [("text", .str "Hi")]])]]
    let payload : JsObject := [("messages", .arr raw)]
    let projected := encodeOpenAIMessages
      (transformMessagesForOpenAI (normalizeChatMessages raw))
    projected = .arr [.obj [("role", .str "user"), ("content", .str "Hi")]] ∧
    getField (sanitizeChatPayload payload projected) "messages" =
      some (.arr raw)) ∧
    JsonV.arr [.obj [("role", .str "user"),
        ("content", .arr [.obj [("text", .str "Hi")]])]] ≠
      JsonV.arr [.obj [("role", .str "user"), ("content", .str "Hi")]] ∧
    ALLOWED_OPENAI_KEYS.contains "messages" = true := by
  refine ⟨⟨rfl, rfl⟩, by simp, by decide⟩

/-! ## C3 -/

/-- C3 counterexample: the claim says messages whose normalized content is
empty or whitespace-only are dropped.  `normalizeChatMessages` only tests
JavaScript truthiness, so a whitespace-only content string survives
normalization even though it trims to empty. -/
theorem normalizeChatMessages_keeps_whitespace_content :
    normalizeChatMessages
        [.obj [("role", .str "user"), ("content", .str " ")]] =
      [{ role := "user", content := " ", images := [] }] ∧
    jsTrim " " = "" := ⟨rfl, rfl⟩

/-- C3 (amended): every message surviving `normalizeChatMessages` has
non-empty content (raw entries whose normalized content is the empty
string, or yields no text at all, are dropped); whitespace-only content
is kept as is. -/
theorem normalizeChatMessages_content_ne_empty (raws : List JsonV)
    (m : ChatMessage) (hm : m ∈ normalizeChatMessages raws) :
    m.content ≠ "" := by
  unfold normalizeChatMessages at hm
  rw [List.mem_filterMap] at hm
  obtain ⟨a, -, ha⟩ := hm
  cases a with
  | str s => simp at ha
  | num q => simp at ha
  | boolV b => simp at ha
  | null => simp at ha
  | arr l => simp at ha
  | obj fields =>
      cases hr : getField fields "role" with
      | none => simp [hr] at ha
      | some rv =>
          cases rv with
          | num q => simp [hr] at ha
          | boolV b => simp [hr] at ha
          | null => simp [hr] at ha
          | arr l => simp [hr] at ha
          | obj f2 => simp [hr] at ha
          | str role =>
              cases hc : getField fields "content" with
              | none => simp [hr, hc] at ha
              | some rc =>
                  cases ht : toPlainText rc with
                  | none => simp [hr, hc, ht] at ha
                  | some content =>
                      by_cases hne : content = ""
                      · simp [hr, hc, ht, hne] at ha
                      · simp only [hr, hc, ht] at ha
                        rw [if_pos hne] at ha
                        injection ha with h2
                        rw [← h2]
                        exact hne

/-- C3 witness: the amended theorem applied at a concrete input. -/
theorem normalizeChatMessages_content_ne_empty_witness :
    ({ role := "user", content := "Hi", images := [] } :
      ChatMessage).content ≠ "" :=
  normalizeChatMessages_content_ne_empty
    [.obj [("role", .str "user"), ("content", .str "Hi")]]
    { role := "user", content := "Hi", images := [] }
    (List.Mem.head _)

/-! ## C4 -/

theorem getField_sanitizeApplyModelAllowSet_ne (payload o : JsObject)
    (k : String) (h : k ≠ "model") :
    getField (sanitizeApplyModelAllowSet payload o) k = getField o k := by
  unfold sanitizeApplyModelAllowSet
  split
  · split
    · exact getField_setField_ne _ _ _ _ h
    · rfl
  · rfl

theorem getField_sanitizeDefaultModel_ne (o : JsObject) (k : String)
    (h : k ≠ "model") :
    getField (sanitizeDefaultModel o) k = getField o k := by
  unfold sanitizeDefaultModel
  split
  · split
    · exact getField_setField_ne _ _ _ _ h
    · rfl
  · exact getField_setField_ne _ _ _ _ h

theorem getField_sanitize_temperature_absent (payload : JsObject)
    (msgs : JsonV) (h : getField payload "temperature" = none) :
    getField (sanitizeChatPayload payload msgs) "temperature" =
      some (JsonV.num qHalf) := by
  have h1 : getField (sanitizeCopyAllowed payload msgs) "temperature" =
      none := by
    unfold sanitizeCopyAllowed
    rw [getField_copy_foldl]
    rw [if_neg (by simp [h])]
    simp [getField_cons, getField]
  have h2 : getField
      (sanitizeApplyModelAllowSet payload (sanitizeCopyAllowed payload msgs))
      "temperature" = none := by
    rw [getField_sanitizeApplyModelAllowSet_ne _ _ _ (by decide)]
    exact h1
  have h3 : getField
      (sanitizeDefaultModel (sanitizeApplyModelAllowSet payload
        (sanitizeCopyAllowed payload msgs))) "temperature" = none := by
    rw [getField_sanitizeDefaultModel_ne _ _ (by decide)]
    exact h2
  unfold sanitizeChatPayload sanitizeDefaultTemperature
  rw [h3]
  exact getField_setField _ _ _

/-- C4 counterexample: the claim reads the OpenAI override marker as the
`mini` family appearing in the resolved model name.  Because the sanitizer
forwards arbitrary model strings (see the C1 finding) a request can
resolve to `"o3-mini"`, whose name contains `mini`; the handler's override
tests strict equality with `"gpt-5-mini"`, so the explicit temperature
0.5 survives to the outgoing request instead of being forced to 1. -/
theorem openAIFinalRequest_mini_family_not_forced :
    (let raw : List JsonV :=
      [.obj [("role", .str "user"), ("content", .str "Hi")]]
    let payload : JsObject :=
      [("messages", .arr raw), ("model", .str "o3-mini"),
       ("temperature", .num qHalf)]
    let projected := encodeOpenAIMessages
      (transformMessagesForOpenAI (normalizeChatMessages raw))
    getField (openAIFinalRequest payload projected) "model" =
      some (.str "o3-mini") ∧
    getField (openAIFinalRequest payload projected) "temperature" =
      some (.num qHalf)) ∧
    strIncludes "o3-mini" "mini" = true ∧
    qHalf ≠ 1 := by
  refine ⟨⟨rfl, rfl⟩, by decide, by decide⟩

/-- C4 (amended): forced-unity temperature override.  Gemini path: when
the resolved model name contains `flash` (case-insensitively) and the
requested temperature is a number other than 1, the outgoing generation
config carries temperature exactly 1.  OpenAI path: the override marker is
strict equality of the resolved model with `"gpt-5-mini"` (not `mini` as
a substring); under it, a sanitized numeric temperature other than 1 is
forced to 1, and an unspecified temperature is first defaulted to 0.5 and
then likewise forced to 1. -/
theorem forced_unity_temperature_override :
    (∀ (payload : JsObject) (defaultModel : String) (t : ℚ),
      extractRequestedTemperature payload
          (buildGeminiGenerationConfig payload) = some t →
      t ≠ 1 →
      isFlashModel (geminiResolvedModel payload defaultModel) = true →
      ∃ gc, geminiResolvedConfig payload defaultModel = some gc ∧
        getField gc "temperature" = some (.num 1)) ∧
    (∀ (payload : JsObject) (msgs : JsonV) (t : ℚ),
      getField (sanitizeChatPayload payload msgs) "temperature" =
        some (.num t) →
      t ≠ 1 →
      openAIResolvedModel (sanitizeChatPayload payload msgs) =
        .str "gpt-5-mini" →
      getField (openAIFinalRequest payload msgs) "temperature" =
        some (.num 1)) ∧
    (∀ (payload : JsObject) (msgs : JsonV),
      getField payload "temperature" = none →
      getField (sanitizeChatPayload payload msgs) "temperature" =
        some (.num qHalf) ∧
      (openAIResolvedModel (sanitizeChatPayload payload msgs) =
          .str "gpt-5-mini" →
        getField (openAIFinalRequest payload msgs) "temperature" =
          some (.num 1))) := by
  refine ⟨?_, ?_, ?_⟩
  · intro payload defaultModel t hext ht hflash
    simp only [geminiResolvedConfig]
    rw [hext]
    dsimp only
    rw [if_pos]
    · exact ⟨_, rfl, getField_setField _ _ _⟩
    · simp [ht, hflash]
  · intro payload msgs t htemp ht hmodel
    simp only [openAIFinalRequest]
    rw [htemp, hmodel]
    dsimp only
    rw [if_pos]
    · exact getField_setField _ _ _
    · simp [ht]
  · intro payload msgs h
    refine ⟨getField_sanitize_temperature_absent payload msgs h, ?_⟩
    intro hmodel
    simp only [openAIFinalRequest]
    rw [getField_sanitize_temperature_absent payload msgs h, hmodel]
    dsimp only
    rw [if_pos]
    · exact getField_setField _ _ _
    · simp [show qHalf ≠ 1 from by decide]

/-- C4 witness: the amended override theorem applied at concrete inputs on
each path. -/
theorem forced_unity_temperature_override_witness :
    (∃ gc, geminiResolvedConfig [("temperature", .num qHalf)]
        "gemini-2.0-flash" = some gc ∧
      getField gc "temperature" = some (.num 1)) ∧
    getField (openAIFinalRequest [("temperature", .num 3)] (.arr []))
      "temperature" = some (.num 1) ∧
    getField (sanitizeChatPayload [] (.arr [])) "temperature" =
      some (.num qHalf) ∧
    getField (openAIFinalRequest [] (.arr [])) "temperature" =
      some (.num 1) := by
  refine ⟨?_, ?_, ?_, ?_⟩
  · exact forced_unity_temperature_override.1
      [("temperature", .num qHalf)] "gemini-2.0-flash" qHalf
      rfl (by decide) (by decide)
  · exact forced_unity_temperature_override.2.1
      [("temperature", .num 3)] (.arr []) 3
      rfl (by norm_num) rfl
  · exact (forced_unity_temperature_override.2.2 [] (.arr []) rfl).1
  · exact (forced_unity_temperature_override.2.2 [] (.arr []) rfl).2 rfl

/-! ## C5 -/

/-- C5: Gemini projection.  For every normalized message list handed to
the Gemini request builder, the `contents` array has exactly one entry per
non-system message, every entry's role is `model` (for `assistant`) or
`user` (for everything else) — so no system-role entry ever appears — with
the source message's text as its leading part; and `systemInstruction` is
present exactly when a system-role message exists, holding a single text
part that newline-joins the system contents in input order. -/
theorem gemini_system_messages_extracted (payload : JsObject)
    (msgs : List ChatMessage) (defaultModel : String) :
    (buildGeminiRequestBody payload msgs defaultModel).contents.length =
      (msgs.filter (fun m => m.role ≠ "system")).length ∧
    (∀ e ∈ (buildGeminiRequestBody payload msgs defaultModel).contents,
      e.role = "model" ∨ e.role = "user") ∧
    (∀ (i : ℕ)
      (h1 : i <
        (buildGeminiRequestBody payload msgs defaultModel).contents.length)
      (h2 : i < (msgs.filter (fun m => m.role ≠ "system")).length),
      ((buildGeminiRequestBody payload msgs defaultModel).contents.get
          ⟨i, h1⟩).role =
        (if ((msgs.filter (fun m => m.role ≠ "system")).get
            ⟨i, h2⟩).role = "assistant" then "model" else "user") ∧
      ((buildGeminiRequestBody payload msgs defaultModel).contents.get
          ⟨i, h1⟩).parts.head? =
        some (.text ((msgs.filter (fun m => m.role ≠ "system")).get
          ⟨i, h2⟩).content)) ∧
    (msgs.filter (fun m => m.role = "system") ≠ [] →
      (buildGeminiRequestBody payload msgs defaultModel).systemInstruction =
        some ⟨"system", [.text (String.intercalate "\n"
          ((msgs.filter (fun m => m.role = "system")).map
            (fun m => m.content)))]⟩) ∧
    (msgs.filter (fun m => m.role = "system") = [] →
      (buildGeminiRequestBody payload msgs defaultModel).systemInstruction =
        none) := by
  refine ⟨?_, ?_, ?_, ?_, ?_⟩
  · simp [buildGeminiRequestBody, transformMessagesForGemini]
  · intro e he
    simp only [buildGeminiRequestBody, transformMessagesForGemini,
      List.mem_map] at he
    obtain ⟨m, -, hm⟩ := he
    by_cases ha : m.role = "assistant"
    · left
      rw [← hm]
      simp [ha]
    · right
      rw [← hm]
      simp [ha]
  · intro i h1 h2
    have hc : (buildGeminiRequestBody payload msgs defaultModel).contents =
        (msgs.filter (fun m => m.role ≠ "system")).map (fun msg =>
          ({ role := if msg.role = "assistant" then "model" else "user",
             parts := .text msg.content ::
               msg.images.filterMap (fun img =>
                 (parseDataUri img.data).map
                   (fun p => .inlineData p.1 p.2)) } : GeminiEntry)) := rfl
    constructor
    · simp [hc, List.getElem_map]
    · simp [hc, List.getElem_map]
  · intro hsys
    simp only [buildGeminiRequestBody]
    rw [if_pos]
    exact List.length_pos.mpr hsys
  · intro hsys
    simp only [buildGeminiRequestBody]
    rw [if_neg]
    simp [hsys]

/-- C5 witness: the projection theorem applied to a concrete conversation
with a system, a user, and an assistant message. -/
theorem gemini_system_messages_extracted_witness :
    (buildGeminiRequestBody []
        [⟨"system", "S", []⟩, ⟨"user", "Hi", []⟩, ⟨"assistant", "Yo", []⟩]
        "gemini-2.0-flash").systemInstruction =
      some ⟨"system", [.text (String.intercalate "\n" ["S"])]⟩ ∧
    ((buildGeminiRequestBody []
        [⟨"system", "S", []⟩, ⟨"user", "Hi", []⟩, ⟨"assistant", "Yo", []⟩]
        "gemini-2.0-flash").contents.get ⟨1, by decide⟩).role =
      (if ("assistant" : String) = "assistant" then "model" else "user") :=
  ⟨(gemini_system_messages_extracted []
      [⟨"system", "S", []⟩, ⟨"user", "Hi", []⟩, ⟨"assistant", "Yo", []⟩]
      "gemini-2.0-flash").2.2.2.1 (List.cons_ne_nil _ _),
   ((gemini_system_messages_extracted []
      [⟨"system", "S", []⟩, ⟨"user", "Hi", []⟩, ⟨"assistant", "Yo", []⟩]
      "gemini-2.0-flash").2.2.1 1 (by decide) (by decide)).1⟩

/-! ## C6 -/

/-- C6: OpenAI projection of images.  The projection is length-preserving;
a message carrying at least one image becomes a parts array of length
`1 + image count` whose head is the text part and whose tail is one
`image_url` part per image (url = the image's `data`), in the original
order; a message without images keeps plain string content. -/
theorem openai_image_projection (msgs : List ChatMessage) (i : ℕ)
    (h : i < msgs.length) :
    (transformMessagesForOpenAI msgs).length = msgs.length ∧
    ((msgs.get ⟨i, h⟩).images ≠ [] →
      (transformMessagesForOpenAI msgs).get
          ⟨i, by simpa [transformMessagesForOpenAI] using h⟩ =
        ⟨(msgs.get ⟨i, h⟩).role,
         .parts (.text (msgs.get ⟨i, h⟩).content ::
           (msgs.get ⟨i, h⟩).images.map
             (fun img => .imageUrl img.data))⟩ ∧
      (OpenAIPart.text (msgs.get ⟨i, h⟩).content ::
        (msgs.get ⟨i, h⟩).images.map
          (fun img => OpenAIPart.imageUrl img.data)).length =
        1 + (msgs.get ⟨i, h⟩).images.length) ∧
    ((msgs.get ⟨i, h⟩).images = [] →
      (transformMessagesForOpenAI msgs).get
          ⟨i, by simpa [transformMessagesForOpenAI] using h⟩ =
        ⟨(msgs.get ⟨i, h⟩).role, .plain (msgs.get ⟨i, h⟩).content⟩) := by
  refine ⟨by simp [transformMessagesForOpenAI], ?_, ?_⟩
  · intro hne
    simp only [List.get_eq_getElem] at hne
    have hpos : msgs[i].images.length > 0 := List.length_pos.mpr hne
    constructor
    · simp only [transformMessagesForOpenAI, List.get_eq_getElem,
        List.getElem_map]
      rw [if_pos hpos]
    · simp [Nat.add_comm]
  · intro hempty
    simp only [List.get_eq_getElem] at hempty
    simp only [transformMessagesForOpenAI, List.get_eq_getElem,
      List.getElem_map]
    rw [if_neg (by simp [hempty])]

/-- C6 witness: the projection theorem applied to a two-image message and
to a plain message. -/
theorem openai_image_projection_witness :
    (transformMessagesForOpenAI
        [⟨"user", "look", [⟨"data:image/png;base64,AA", none⟩,
                           ⟨"data:image/jpeg;base64,BB", none⟩]⟩,
         ⟨"assistant", "ok", []⟩]).get ⟨0, by decide⟩ =
      ⟨"user", .parts [.text "look",
        .imageUrl "data:image/png;base64,AA",
        .imageUrl "data:image/jpeg;base64,BB"]⟩ ∧
    (transformMessagesForOpenAI
        [⟨"user", "look", [⟨"data:image/png;base64,AA", none⟩,
                           ⟨"data:image/jpeg;base64,BB", none⟩]⟩,
         ⟨"assistant", "ok", []⟩]).get ⟨1, by decide⟩ =
      ⟨"assistant", .plain "ok"⟩ := by
  constructor
  · exact ((openai_image_projection
      [⟨"user", "look", [⟨"data:image/png;base64,AA", none⟩,
                         ⟨"data:image/jpeg;base64,BB", none⟩]⟩,
       ⟨"assistant", "ok", []⟩] 0 (by decide)).2.1
      (List.cons_ne_nil _ _)).1
  · exact (openai_image_projection
      [⟨"user", "look", [⟨"data:image/png;base64,AA", none⟩,
                         ⟨"data:image/jpeg;base64,BB", none⟩]⟩,
       ⟨"assistant", "ok", []⟩] 1 (by decide)).2.2 rfl

/-! ## C7 -/

theorem relayLoop_ok_spec (benign : String → Bool) (items : List UpItem) :
    ∀ (s s' : RelayState), relayLoop benign items s = .ok s' →
    (s.ended = true → s' = s) ∧
    (s.ended = false → ∃ ws : List String,
      s'.log = s.log ++ ws.map REvent.wrote ++ [REvent.closed] ∧
      s'.ended = true) := by
  induction items with
  | nil =>
      intro s s' hr
      simp only [relayLoop, Except.ok.injEq] at hr
      subst hr
      cases hend : s.ended with
      | true =>
          exact ⟨fun _ => (by simp [finishRelay, hend]),
            fun hf => (nomatch hf)⟩
      | false =>
          exact ⟨fun ht => (nomatch ht),
            fun _ => ⟨[], by simp [finishRelay, hend], by simp [finishRelay, hend]⟩⟩
  | cons it rest ih =>
      intro s s' hr
      cases it with
      | textDelta t we =>
          simp only [relayLoop] at hr
          cases hend : s.ended with
          | true =>
              rw [if_pos hend] at hr
              simp only [Except.ok.injEq] at hr
              subst hr
              exact ⟨fun _ => (by simp [finishRelay, hend]),
                fun hf => (nomatch hf)⟩
          | false =>
              rw [if_neg (by simp [hend])] at hr
              cases we with
              | some msg =>
                  simp only [Except.ok.injEq] at hr
                  subst hr
                  exact ⟨fun ht => (nomatch ht),
                    fun _ => ⟨[], by simp [finishRelay, hend], by simp [finishRelay, hend]⟩⟩
              | none =>
                  obtain ⟨ws, hlog, hended⟩ := (ih _ _ hr).2 hend
                  refine ⟨fun ht => (nomatch ht),
                    fun _ => ⟨textDeltaFrame t :: ws, ?_, hended⟩⟩
                  simp only [List.map_cons] at hlog ⊢
                  simpa [List.append_assoc] using hlog
      | finish r we =>
          simp only [relayLoop] at hr
          cases hend : s.ended with
          | true =>
              rw [if_pos hend] at hr
              have hspec := (ih _ _ hr).1 hend
              subst hspec
              exact ⟨fun _ => rfl, fun hf => (nomatch hf)⟩
          | false =>
              rw [if_neg (by simp [hend])] at hr
              cases we with
              | some msg =>
                  simp only [Except.ok.injEq] at hr
                  subst hr
                  exact ⟨fun ht => (nomatch ht),
                    fun _ => ⟨[], by simp [finishRelay, hend], by simp [finishRelay, hend]⟩⟩
              | none =>
                  obtain ⟨ws, hlog, hended⟩ := (ih _ _ hr).2 hend
                  refine ⟨fun ht => (nomatch ht),
                    fun _ => ⟨finishFrame r :: ws, ?_, hended⟩⟩
                  simp only [List.map_cons] at hlog ⊢
                  simpa [List.append_assoc] using hlog
      | other =>
          simp only [relayLoop] at hr
          exact ih _ _ hr
      | errEv msg =>
          simp only [relayLoop] at hr
          by_cases hb : benign msg = true
          · rw [if_pos hb] at hr
            simp only [Except.ok.injEq] at hr
            subst hr
            cases hend : s.ended with
            | true =>
                exact ⟨fun _ => (by simp [finishRelay, hend]),
                  fun hf => (nomatch hf)⟩
            | false =>
                exact ⟨fun ht => (nomatch ht),
                  fun _ => ⟨[], by simp [finishRelay, hend], by simp [finishRelay, hend]⟩⟩
          · rw [if_neg hb] at hr
            cases hr

theorem closedCount_wrotes (ws : List String) :
    closedCount (ws.map REvent.wrote) = 0 := by
  rw [closedCount, List.countP_eq_zero]
  intro a ha
  obtain ⟨w, -, rfl⟩ := List.mem_map.mp ha
  simp

theorem noWriteAfterClose_wrotes_closed (ws : List String) :
    noWriteAfterClose (ws.map REvent.wrote ++ [REvent.closed]) = true := by
  induction ws with
  | nil => rfl
  | cons w ws ih => exact ih

/-- C7: in every non-throwing run of either tagged-line relay, the
downstream connection ends up closed exactly once (counting a closure
observed before the relay ran), and no frame is ever written at or after
a point where the connection is closed; in particular a connection
observed closed at entry receives no event at all. -/
theorem relay_closes_once_no_write_after_close (ended0 : Bool)
    (items : List UpItem) (s : RelayState) :
    (handleGeminiStreamingRelay ended0 items = .ok s →
      closedCount s.log + (if ended0 then 1 else 0) = 1 ∧
      noWriteAfterClose s.log = true ∧
      (ended0 = true → s.log = [])) ∧
    (handleOpenAIStreamingRelay ended0 items = .ok s →
      closedCount s.log + (if ended0 then 1 else 0) = 1 ∧
      noWriteAfterClose s.log = true ∧
      (ended0 = true → s.log = [])) := by
  constructor
  all_goals
    intro hr
    have hspec := relayLoop_ok_spec _ items ⟨ended0, []⟩ s hr
    cases ended0 with
    | true =>
        have hs := hspec.1 rfl
        subst hs
        exact ⟨rfl, rfl, fun _ => rfl⟩
    | false =>
        obtain ⟨ws, hlog, -⟩ := hspec.2 rfl
        simp only [List.nil_append] at hlog
        rw [hlog]
        refine ⟨?_, noWriteAfterClose_wrotes_closed ws,
          fun hf => (nomatch hf)⟩
        have h0 := closedCount_wrotes ws
        simp only [closedCount, List.countP_append] at h0 ⊢
        simp [h0]

/-- C7 witness: the close-once theorem applied to a concrete finished run
of the Gemini relay and a concrete already-closed run of the OpenAI
relay. -/
theorem relay_closes_once_witness :
    (closedCount [REvent.wrote (textDeltaFrame "Hi"),
        REvent.wrote (finishFrame "stop"), REvent.closed] +
      (if false then 1 else 0) = 1 ∧
      noWriteAfterClose [REvent.wrote (textDeltaFrame "Hi"),
        REvent.wrote (finishFrame "stop"), REvent.closed] = true ∧
      (false = true → [REvent.wrote (textDeltaFrame "Hi"),
        REvent.wrote (finishFrame "stop"), REvent.closed] =
          ([] : List REvent))) ∧
    (closedCount ([] : List REvent) + (if true then 1 else 0) = 1 ∧
      noWriteAfterClose ([] : List REvent) = true ∧
      (true = true → ([] : List REvent) = [])) :=
  ⟨(relay_closes_once_no_write_after_close false
      [.textDelta "Hi" none, .finish "stop" none]
      ⟨true, [.wrote (textDeltaFrame "Hi"), .wrote (finishFrame "stop"),
        .closed]⟩).1 rfl,
   (relay_closes_once_no_write_after_close true
      [.textDelta "Hi" none] ⟨true, []⟩).2 rfl⟩

/-! ## C8 -/

/-- C8 counterexample: the claim says every exception whose message
matches none of the benign signatures propagates out of the relay.  A
downstream write that throws is caught by the inner per-write catch and
merely breaks the loop, whatever its message: with the realistic
non-matching message of Node's ERR_STREAM_DESTROYED both relays return
normally. -/
theorem relay_swallows_nonmatching_write_error :
    handleGeminiStreamingRelay false
        [.textDelta "Hello"
          (some "Cannot call write after a stream was destroyed")] =
      .ok ⟨true, [.closed]⟩ ∧
    benignDisconnectGemini
      "Cannot call write after a stream was destroyed" = false ∧
    handleOpenAIStreamingRelay false
        [.textDelta "Hello"
          (some "Cannot call write after a stream was destroyed")] =
      .ok ⟨true, [.closed]⟩ := by
  refine ⟨rfl, by decide, rfl⟩

/-- C8 (amended): both relays use the same benign-disconnect signature
set; an upstream-iterator exception whose message matches it is swallowed
(the relay returns normally, appending at most the closing event and no
frame), one matching none of the signatures propagates out; an exception
thrown by a downstream write, however, is swallowed regardless of its
message, terminating the relay normally. -/
theorem relay_benign_swallowed_fatal_propagates (s : RelayState)
    (rest : List UpItem) (msg : String) :
    benignDisconnectOpenAI msg = benignDisconnectGemini msg ∧
    (benignDisconnectGemini msg = true →
      relayLoop benignDisconnectGemini (.errEv msg :: rest) s =
        .ok (finishRelay s) ∧
      relayLoop benignDisconnectOpenAI (.errEv msg :: rest) s =
        .ok (finishRelay s) ∧
      ((finishRelay s).log = s.log ∨
        (finishRelay s).log = s.log ++ [REvent.closed])) ∧
    (benignDisconnectGemini msg = false →
      relayLoop benignDisconnectGemini (.errEv msg :: rest) s =
        .error msg ∧
      relayLoop benignDisconnectOpenAI (.errEv msg :: rest) s =
        .error msg) ∧
    (∀ (t emsg : String), s.ended = false →
      relayLoop benignDisconnectGemini
          (.textDelta t (some emsg) :: rest) s = .ok (finishRelay s) ∧
      relayLoop benignDisconnectOpenAI
          (.textDelta t (some emsg) :: rest) s = .ok (finishRelay s) ∧
      relayLoop benignDisconnectGemini
          (.finish t (some emsg) :: rest) s = .ok (finishRelay s) ∧
      relayLoop benignDisconnectOpenAI
          (.finish t (some emsg) :: rest) s = .ok (finishRelay s)) := by
  have heq : benignDisconnectOpenAI msg = benignDisconnectGemini msg := by
    simp only [benignDisconnectOpenAI, benignDisconnectGemini]
    cases strIncludes msg "write after end" <;>
      cases strIncludes msg "EPIPE" <;>
        cases strIncludes msg "ECONNRESET" <;> rfl
  refine ⟨heq, ?_, ?_, ?_⟩
  · intro hb
    refine ⟨?_, ?_, ?_⟩
    · simp only [relayLoop]
      rw [if_pos hb]
    · simp only [relayLoop]
      rw [if_pos (heq.trans hb)]
    · unfold finishRelay
      by_cases he : s.ended <;> simp [he]
  · intro hb
    constructor
    · simp only [relayLoop]
      rw [if_neg (by simp [hb])]
    · simp only [relayLoop]
      rw [if_neg (by simp [heq.trans hb])]
  · intro t emsg hend
    refine ⟨?_, ?_, ?_, ?_⟩ <;>
      · simp only [relayLoop]
        rw [if_neg (by simp [hend])]

/-- C8 witness: the amended theorem applied with a benign message, a fatal
message, and a throwing write. -/
theorem relay_benign_swallowed_fatal_propagates_witness :
    (relayLoop benignDisconnectGemini [.errEv "recv EPIPE"]
        (⟨false, []⟩ : RelayState) = .ok (finishRelay ⟨false, []⟩) ∧
      relayLoop benignDisconnectOpenAI [.errEv "recv EPIPE"]
        (⟨false, []⟩ : RelayState) = .ok (finishRelay ⟨false, []⟩) ∧
      ((finishRelay (⟨false, []⟩ : RelayState)).log =
          (⟨false, []⟩ : RelayState).log ∨
        (finishRelay (⟨false, []⟩ : RelayState)).log =
          (⟨false, []⟩ : RelayState).log ++ [REvent.closed])) ∧
    (relayLoop benignDisconnectGemini [.errEv "upstream 500"]
        (⟨false, []⟩ : RelayState) = .error "upstream 500" ∧
      relayLoop benignDisconnectOpenAI [.errEv "upstream 500"]
        (⟨false, []⟩ : RelayState) = .error "upstream 500") ∧
    relayLoop benignDisconnectGemini
        [.textDelta "T" (some "disk full")]
        (⟨false, []⟩ : RelayState) = .ok (finishRelay ⟨false, []⟩) :=
  ⟨(relay_benign_swallowed_fatal_propagates ⟨false, []⟩ [] "recv EPIPE").2.1
      (by decide),
   (relay_benign_swallowed_fatal_propagates ⟨false, []⟩ []
      "upstream 500").2.2.1 (by decide),
   ((relay_benign_swallowed_fatal_propagates ⟨false, []⟩ []
      "boom").2.2.2 "T" "disk full" rfl).1⟩

/-! ## C9 -/

/-- C9 counterexample: the claim says a non-empty, non-JSON string body
gets HTTP 400.  `parseJsonBody` throws a plain `Error`, which
`withCorsAndErrorHandling` routes to `handleError`'s non-axios branch,
producing HTTP 500 — not 400. -/
theorem invalid_json_body_yields_500 :
    handleChatCompletionModel (fun _ => none) (.strBody "not json") =
      .respond ⟨500, [("error", .str "Invalid JSON payload")]⟩ ∧
    (500 : ℕ) ≠ 400 := ⟨rfl, by decide⟩

/-- C9 (amended): for every request whose body is a non-empty string that
does not parse as JSON, both chat handlers respond without any upstream
call (the outcome is `respond`, never an upstream constructor) with HTTP
status 500 and body `\x7berror: "Invalid JSON payload"\x7d`. -/
theorem invalid_json_body_no_upstream (parse : String → Option JsObject)
    (sbody : String) (dm : String) (hs : sbody ≠ "")
    (hp : parse sbody = none) :
    handleChatCompletionModel parse (.strBody sbody) =
      .respond ⟨500, [("error", .str "Invalid JSON payload")]⟩ ∧
    handleGeminiChatModel parse (.strBody sbody) dm =
      .respond ⟨500, [("error", .str "Invalid JSON payload")]⟩ := by
  have hparse : parseJsonBodyE parse (.strBody sbody) =
      .error "Invalid JSON payload" := by
    simp only [parseJsonBodyE]
    rw [if_neg hs, hp]
  constructor
  · simp only [handleChatCompletionModel]
    rw [hparse]
    rfl
  · simp only [handleGeminiChatModel]
    rw [hparse]
    rfl

/-- C9 witness: the amended theorem applied at a concrete unparseable
body. -/
theorem invalid_json_body_no_upstream_witness :
    handleChatCompletionModel (fun _ => none) (.strBody "x") =
      .respond ⟨500, [("error", .str "Invalid JSON payload")]⟩ ∧
    handleGeminiChatModel (fun _ => none) (.strBody "x") "gemini-pro" =
      .respond ⟨500, [("error", .str "Invalid JSON payload")]⟩ :=
  invalid_json_body_no_upstream (fun _ => none) "x" "gemini-pro"
    (by decide) rfl

/-! ## C10 -/

/-- C10: on the Gemini path, a payload that normalizes to a non-empty,
all-system message list passes the usable-messages check but produces an
empty `contents` projection, so the handler responds HTTP 400 with
`No user or assistant messages found` and never reaches an upstream
constructor. -/
theorem gemini_all_system_messages_400 (parse : String → Option JsObject)
    (body : ReqBody) (dm : String) (payload : JsObject) (raw : List JsonV)
    (hparse : parseJsonBodyE parse body = .ok payload)
    (hmsgs : buildMessages payload = some raw)
    (hne : normalizeChatMessages raw ≠ [])
    (hall : ∀ m ∈ normalizeChatMessages raw, m.role = "system") :
    handleGeminiChatModel parse body dm =
      .respond ⟨400,
        [("error", .str "No user or assistant messages found")]⟩ := by
  have hfil : (normalizeChatMessages raw).filter
      (fun m => m.role ≠ "system") = [] := by
    rw [List.filter_eq_nil_iff]
    intro m hm
    simp [hall m hm]
  simp only [handleGeminiChatModel]
  rw [hparse]
  dsimp only
  rw [hmsgs]
  dsimp only
  rw [if_neg (fun h => hne (List.length_eq_zero.mp h))]
  rw [if_pos (show (transformMessagesForGemini
      (normalizeChatMessages raw)).length = 0 by
    simp only [transformMessagesForGemini, hfil, List.map_nil,
      List.length_nil])]

/-- C10 witness: the theorem applied to a concrete body holding a single
system message. -/
theorem gemini_all_system_messages_400_witness :
    handleGeminiChatModel (fun _ => none)
        (.objBody [("messages",
          .arr [.obj [("role", .str "system"), ("content", .str "S")]])])
        "gemini-pro" =
      .respond ⟨400,
        [("error", .str "No user or assistant messages found")]⟩ :=
  gemini_all_system_messages_400 (fun _ => none)
    (.objBody [("messages",
      .arr [.obj [("role", .str "system"), ("content", .str "S")]])])
    "gemini-pro"
    [("messages", .arr [.obj [("role", .str "system"),
      ("content", .str "S")]])]
    [.obj [("role", .str "system"), ("content", .str "S")]]
    rfl rfl (List.cons_ne_nil _ _)
    (fun m hm => by rw [List.mem_singleton.mp hm])
